import Mathlib

/-!
Verification development for the TEx-RL-Check repository.

The definitions below are a shallow embedding of src/rlcheckmt.py (the
concurrent pipeline) and, where explicitly noted, of the single-threaded
src/rlcheck.py.  Python dicts become ordered association lists, the HTTP
call becomes an oracle argument describing its outcome, and runtime
exceptions (UnboundLocalError, KeyError) become the error side of Except.
-/

namespace TExRLCheck

/-- A CSV row / Python dict: an ordered list of field-value pairs
(csv.DictReader produces one per input line). -/
abbrev Record := List (String × String)

/-- Python dict read row["k"]: value at the first matching key, none when the
key is absent (absence raises KeyError at the call sites, modelled there). -/
def dictGet (r : Record) (k : String) : Option String :=
  match r with
  | [] => none
  | (k1, v1) :: rest => if k1 = k then some v1 else dictGet rest k

/-- Python dict write row["k"] = v: overwrite in place when the key is
present, append at the end otherwise (dict.update semantics per key). -/
def dictSet (r : Record) (k v : String) : Record :=
  match r with
  | [] => [(k, v)]
  | (k1, v1) :: rest => if k1 = k then (k, v) :: rest else (k1, v1) :: dictSet rest k v

/-- src/rlcheckmt.py line 55. -/
def MIN_BLOCKED_RISK_LEVEL : Int := 8

/-- src/rlcheckmt.py line 58. -/
def BLOCKED_CATEGORY_IDS : List Int := [17, 18, 43, 44]

/-- src/rlcheckmt.py line 52. -/
def SUPPORTED_THREAT_TYPES : List String := ["IP Address", "Domain", "URL"]

/-- One entry of data["categorization"]["categories"] in the API response. -/
structure Category where
  id : Int
  name : String
deriving DecidableEq

/-- The JSON body of the API response, reduced to the two paths rlcheck
reads: data["categorization"]["categories"] (when both keys are present) and
data["threatRiskLevel"]["level"] (when both keys are present). -/
structure ApiData where
  categories : Option (List Category)
  threatRiskLevel : Option Int
deriving DecidableEq

/-- The HTTP response object: status_code and the parsed JSON body. -/
structure Response where
  status_code : Nat
  data : ApiData
deriving DecidableEq

/-- Outcome of the requests.get call inside rlcheck: either a
requests.exceptions.RequestException is raised before a response exists, or a
response is obtained. -/
inductive HttpOutcome where
  | exn
  | ok (resp : Response)
deriving DecidableEq

/-- Python runtime exceptions that escape the embedded functions. -/
inductive PyError where
  | unboundLocalResponse
  | keyError
deriving DecidableEq

/-- The dict returned by rlcheck (src/rlcheckmt.py lines 256-297).  The keys
blocked_by_cat and blocked_by_rl are absent until assigned in Python; they
are modelled as Booleans that start out false. -/
structure RlRet where
  error : Nat
  blocked : Nat
  risklevel : Int
  category : List String
  blocked_by_cat : Bool
  blocked_by_rl : Bool
deriving DecidableEq

/-- The for loop over categories, src/rlcheckmt.py lines 276-280: append each
category name to ret["category"] and set blocked / blocked_by_cat when the id
is one of BLOCKED_CATEGORY_IDS. -/
def catLoop (ret : RlRet) : List Category → RlRet
  | [] => ret
  | cat :: rest =>
      let ret1 : RlRet := { ret with category := ret.category ++ [cat.name] }
      let ret2 : RlRet :=
        if cat.id ∈ BLOCKED_CATEGORY_IDS then
          { ret1 with blocked := 1, blocked_by_cat := true }
        else ret1
      catLoop ret2 rest

/-- The body of the 200 branch of rlcheck, src/rlcheckmt.py lines 268-288:
re-assign error, blocked and category (lines 268-270), run the category loop
when data["categorization"]["categories"] is present (lines 273-280), then
record the risk level and apply the threshold check when
data["threatRiskLevel"]["level"] is present (lines 282-288). -/
def rlcheck200 (ret0 : RlRet) (d : ApiData) : RlRet :=
  let ret1 : RlRet := { ret0 with error := 0, blocked := 0, category := [] }
  let ret2 : RlRet :=
    match d.categories with
    | some cats => catLoop ret1 cats
    | none => ret1
  match d.threatRiskLevel with
  | some level =>
      let ret3 : RlRet := { ret2 with risklevel := level }
      if MIN_BLOCKED_RISK_LEVEL ≤ level then
        { ret3 with blocked := 1, blocked_by_rl := true }
      else ret3
  | none => ret2

/-- src/rlcheckmt.py lines 248-297.  The argument o is the outcome of the
requests.get call for this ioc.  On a transport exception the except branch
stores the exception object in ret["error"], but line 267 then reads
response.status_code unconditionally; the local response was never assigned,
so UnboundLocalError is raised and the call never returns on that path. -/
def rlcheck (ioc : String) (o : HttpOutcome) : Except PyError RlRet :=
  let ret0 : RlRet :=
    { error := 0, blocked := 0, risklevel := 0, category := [],
      blocked_by_cat := false, blocked_by_rl := false }
  match o with
  | HttpOutcome.exn => Except.error PyError.unboundLocalResponse
  | HttpOutcome.ok response =>
      if response.status_code = 200 then
        Except.ok (rlcheck200 ret0 response.data)
      else if response.status_code = 400 then Except.ok { ret0 with error := 400 }
      else if response.status_code = 401 then Except.ok { ret0 with error := 401 }
      else if response.status_code = 429 then Except.ok { ret0 with error := 429 }
      else Except.ok ret0

/-- The three output sinks a record can be routed to. -/
inductive Route where
  | toBlocked
  | toPolicy
  | toError
deriving DecidableEq

/-- A stat event tag, the value of the "type" key sent to IOCStat.update. -/
inductive StatEvent where
  | blocked
  | policy
  | error
deriving DecidableEq

/-- The stat event do_work records together with each route. -/
def statOf : Route → StatEvent
  | Route.toBlocked => StatEvent.blocked
  | Route.toPolicy => StatEvent.policy
  | Route.toError => StatEvent.error

/-- The observable effect of one do_work call: the sink the record was
written to, the stat event recorded, and the record as written. -/
structure WorkResult where
  route : Route
  stat : StatEvent
  written : Record
deriving DecidableEq

/-- The comma-join loop over ret["category"], src/rlcheckmt.py lines
304 and 310-314. -/
def joinCatsLoop (categories : String) : List String → String
  | [] => categories
  | cat :: rest =>
      if categories = "" then joinCatsLoop cat rest
      else joinCatsLoop (categories ++ ", " ++ cat) rest

/-- src/rlcheckmt.py lines 315-316: item.update adding BC_RiskLevel and
BC_Category (csv.DictWriter stringifies the integer risk level on write). -/
def augmentedItem (item : Record) (ret : RlRet) : Record :=
  dictSet (dictSet item "BC_RiskLevel" (toString ret.risklevel)) "BC_Category"
    (joinCatsLoop "" ret.category)

/-- src/rlcheckmt.py lines 300-322.  item["Indicator"] raises KeyError when
the field is absent; a crash of rlcheck propagates. -/
def do_work (item : Record) (o : HttpOutcome) : Except PyError WorkResult :=
  match dictGet item "Indicator" with
  | none => Except.error PyError.keyError
  | some ioc =>
      match rlcheck ioc o with
      | Except.error e => Except.error e
      | Except.ok ret =>
          if ret.error ≠ 0 then
            Except.ok { route := Route.toError, stat := StatEvent.error, written := item }
          else
            if ret.blocked = 1 then
              Except.ok { route := Route.toBlocked, stat := StatEvent.blocked,
                          written := augmentedItem item ret }
            else
              Except.ok { route := Route.toPolicy, stat := StatEvent.policy,
                          written := augmentedItem item ret }

/-- The four counters of IOCStat (src/rlcheckmt.py lines 182-193). -/
structure IOCStat where
  ioc_blocked : Nat
  ioc_policy : Nat
  ioc_error : Nat
  ioc_total : Nat
deriving DecidableEq

/-- Applying one dequeued stat event, src/rlcheckmt.py lines 219-227: the
matching counter and ioc_total are both incremented before task_done. -/
def stat_keeper_step (s : IOCStat) (e : StatEvent) : IOCStat :=
  let s1 : IOCStat :=
    match e with
    | StatEvent.blocked => { s with ioc_blocked := s.ioc_blocked + 1 }
    | StatEvent.policy => { s with ioc_policy := s.ioc_policy + 1 }
    | StatEvent.error => { s with ioc_error := s.ioc_error + 1 }
  { s1 with ioc_total := s1.ioc_total + 1 }

/-- The stat_keeper loop applied to a finite sequence of dequeued events. -/
def stat_keeper_run (s : IOCStat) : List StatEvent → IOCStat
  | [] => s
  | e :: rest => stat_keeper_run (stat_keeper_step s e) rest

/-- The counter relation the aggregator maintains. -/
def statInv (s : IOCStat) : Prop :=
  s.ioc_total = s.ioc_blocked + s.ioc_policy + s.ioc_error

/-- Initial IOCStat counters (src/rlcheckmt.py lines 184-187). -/
def statInit : IOCStat := { ioc_blocked := 0, ioc_policy := 0, ioc_error := 0, ioc_total := 0 }

/-- Whether main enqueues the row: row["ThreatType"] in
SUPPORTED_THREAT_TYPES (src/rlcheckmt.py line 415); false when the key is
absent, a case ingest_rows turns into a KeyError. -/
def row_supported (row : Record) : Bool :=
  match dictGet row "ThreatType" with
  | some t => SUPPORTED_THREAT_TYPES.contains t
  | none => false

/-- Cumulative effect of the ingestion loop: rows put on the work queue, rows
written directly to the error sink, and stat events recorded. -/
structure IngestState where
  queued : List Record
  errorWritten : List Record
  statEvents : List StatEvent
deriving DecidableEq

/-- The ingestion loop, src/rlcheckmt.py lines 411-419: a supported row is
put on the work queue, any other row is written to the error sink and an
error stat event is recorded; the row never reaches the queue (and hence
never reaches rlcheck, which is only called on dequeued items). -/
def ingest_rows (st : IngestState) : List Record → Except PyError IngestState
  | [] => Except.ok st
  | row :: rest =>
      match dictGet row "ThreatType" with
      | none => Except.error PyError.keyError
      | some t =>
          if SUPPORTED_THREAT_TYPES.contains t then
            ingest_rows { st with queued := st.queued ++ [row] } rest
          else
            ingest_rows
              { st with errorWritten := st.errorWritten ++ [row],
                        statEvents := st.statEvents ++ [StatEvent.error] } rest

/-- State of one CSVWriter sink: records submitted but not yet written and
acknowledged, records already written, and the submission history. -/
structure SinkState where
  pending : List Record
  written : List Record
  submitted : List Record
deriving DecidableEq

/-- CSVWriter.write (src/rlcheckmt.py lines 164-165): put the record on the
pending queue and return immediately. -/
def CSVWriter_write (s : SinkState) (d : Record) : SinkState :=
  { s with pending := s.pending ++ [d], submitted := s.submitted ++ [d] }

/-- One iteration of CSVWriter.internal_writer (lines 167-174): take the
oldest pending record, write it, then acknowledge it with task_done. -/
def internal_writer_step (s : SinkState) : SinkState :=
  match s.pending with
  | [] => s
  | d :: rest => { s with pending := rest, written := s.written ++ [d] }

/-- An event in the life of a sink: a submit from some worker thread or one
write step of the internal writer thread. -/
inductive SinkOp where
  | submit (d : Record)
  | writeStep
deriving DecidableEq

def sinkStep (s : SinkState) : SinkOp → SinkState
  | SinkOp.submit d => CSVWriter_write s d
  | SinkOp.writeStep => internal_writer_step s

def sinkRun (s : SinkState) : List SinkOp → SinkState
  | [] => s
  | op :: rest => sinkRun (sinkStep s op) rest

/-- Sink bookkeeping relation: everything submitted is either written or
still pending, in order. -/
def sinkInv (s : SinkState) : Prop :=
  s.submitted = s.written ++ s.pending

/-- The empty sink, as constructed by CSVWriter before any submit. -/
def sinkInit : SinkState := { pending := [], written := [], submitted := [] }

/-- The three steps of CSVWriter.close, src/rlcheckmt.py lines 176-179, in
source order: self.queue.join() (blocks until every pending record is
written and acknowledged), self.finished = True, self.filewriter.close(). -/
inductive SinkCloseStep where
  | pendingJoin
  | setFinished
  | releaseHandle
deriving DecidableEq

def csvwriter_close_trace : List SinkCloseStep :=
  [SinkCloseStep.pendingJoin, SinkCloseStep.setFinished, SinkCloseStep.releaseHandle]

/-- The coordinator actions of main from ingestion to shutdown,
src/rlcheckmt.py lines 411-439, in source order. -/
inductive CoordStep where
  | enqueueRecords
  | queueJoin
  | shutdownSet
  | closeBlocked
  | closePolicy
  | closeError
  | printFinal
  | statClose
deriving DecidableEq

def main_shutdown_trace : List CoordStep :=
  [CoordStep.enqueueRecords, CoordStep.queueJoin, CoordStep.shutdownSet,
   CoordStep.closeBlocked, CoordStep.closePolicy, CoordStep.closeError,
   CoordStep.printFinal, CoordStep.statClose]

/-- Presence and data-row count of one output file on disk. -/
structure FileState where
  present : Bool
  rows : Nat
deriving DecidableEq

/-- CSVWriter.__init__ (src/rlcheckmt.py lines 154-162) opens the output file
in mode "w" and writes the header row, so the file is on disk from sink
construction on. -/
def csvwriter_init_file : FileState := { present := true, rows := 0 }

/-- Writing one record appends one data row to the file. -/
def csvwriter_write_file (f : FileState) : FileState := { f with rows := f.rows + 1 }

/-- CSVWriter.close (src/rlcheckmt.py lines 176-179) flushes and closes the
handle; nothing in rlcheckmt.py ever removes an output file. -/
def csvwriter_close_file (f : FileState) : FileState := f

def applyWrites : Nat → FileState → FileState
  | 0, f => f
  | n + 1, f => applyWrites n (csvwriter_write_file f)

/-- The file of one output role after a full rlcheckmt.py run that wrote n
records to that role: created with a header at startup, n rows written, then
closed. -/
def rlcheckmt_role_file (n : Nat) : FileState :=
  csvwriter_close_file (applyWrites n csvwriter_init_file)

/-- The file of one output role after a full single-threaded rlcheck.py run
(src/rlcheck.py lines 184-227): the file is created by open(..., "w") at the
start, count rows are written, and at the end os.remove deletes it exactly
when its count is zero. -/
def rlcheck_st_role_file (count : Nat) : FileState :=
  let f : FileState := applyWrites count { present := true, rows := 0 }
  if count = 0 then { f with present := false } else f

/-! Helper lemmas. -/

theorem dictGet_dictSet_self (r : Record) (k v : String) :
    dictGet (dictSet r k v) k = some v := by
  induction r with
  | nil => simp [dictSet, dictGet]
  | cons p rest ih =>
      obtain ⟨k1, v1⟩ := p
      by_cases h : k1 = k
      · simp [dictSet, dictGet, h]
      · simp [dictSet, dictGet, h, ih]

theorem dictGet_dictSet_ne (r : Record) (k k2 v : String) (h : k2 ≠ k) :
    dictGet (dictSet r k v) k2 = dictGet r k2 := by
  induction r with
  | nil => simp [dictSet, dictGet, Ne.symm h]
  | cons p rest ih =>
      obtain ⟨k1, v1⟩ := p
      by_cases h1 : k1 = k
      · subst h1
        simp [dictSet, dictGet, Ne.symm h]
      · simp [dictSet, dictGet, h1, ih]

theorem isSome_dictGet_dictSet (r : Record) (k k2 v : String) :
    (dictGet (dictSet r k v) k2).isSome = true ↔
      (dictGet r k2).isSome = true ∨ k2 = k := by
  by_cases h : k2 = k
  · subst h
    simp [dictGet_dictSet_self]
  · simp [dictGet_dictSet_ne r k k2 v h, h]

theorem catLoop_risklevel (cats : List Category) (ret : RlRet) :
    (catLoop ret cats).risklevel = ret.risklevel := by
  induction cats generalizing ret with
  | nil => rfl
  | cons cat rest ih =>
      by_cases h : cat.id ∈ BLOCKED_CATEGORY_IDS <;> simp [catLoop, h, ih]

theorem catLoop_blocked_by_rl (cats : List Category) (ret : RlRet) :
    (catLoop ret cats).blocked_by_rl = ret.blocked_by_rl := by
  induction cats generalizing ret with
  | nil => rfl
  | cons cat rest ih =>
      by_cases h : cat.id ∈ BLOCKED_CATEGORY_IDS <;> simp [catLoop, h, ih]

theorem rlcheck200_props (ret0 : RlRet) (d : ApiData) (level : Int)
    (hlev : d.threatRiskLevel = some level) (h0 : ret0.blocked_by_rl = false) :
    (rlcheck200 ret0 d).risklevel = level ∧
    ((rlcheck200 ret0 d).blocked_by_rl = true ↔ MIN_BLOCKED_RISK_LEVEL ≤ level) ∧
    (MIN_BLOCKED_RISK_LEVEL ≤ level → (rlcheck200 ret0 d).blocked = 1) := by
  cases hcats : d.categories with
  | none =>
      by_cases hrl : MIN_BLOCKED_RISK_LEVEL ≤ level <;>
        simp [rlcheck200, hlev, hcats, hrl, h0]
  | some cats =>
      by_cases hrl : MIN_BLOCKED_RISK_LEVEL ≤ level <;>
        simp [rlcheck200, hlev, hcats, hrl, h0, catLoop_blocked_by_rl]

theorem rlcheck200_risklevel_none (ret0 : RlRet) (d : ApiData)
    (hnone : d.threatRiskLevel = none) (h0 : ret0.risklevel = 0) :
    (rlcheck200 ret0 d).risklevel = 0 := by
  cases hcats : d.categories with
  | none => simp [rlcheck200, hnone, hcats, h0]
  | some cats => simp [rlcheck200, hnone, hcats, catLoop_risklevel, h0]

theorem augmentedItem_frame (item : Record) (ret : RlRet) :
    (∀ k, k ≠ "BC_RiskLevel" → k ≠ "BC_Category" →
        dictGet (augmentedItem item ret) k = dictGet item k) ∧
    dictGet (augmentedItem item ret) "BC_RiskLevel" = some (toString ret.risklevel) ∧
    dictGet (augmentedItem item ret) "BC_Category" =
      some (joinCatsLoop "" ret.category) ∧
    (∀ k, (dictGet (augmentedItem item ret) k).isSome = true ↔
        (dictGet item k).isSome = true ∨ k = "BC_RiskLevel" ∨ k = "BC_Category") := by
  refine ⟨?_, ?_, ?_, ?_⟩
  · intro k h1 h2
    rw [augmentedItem, dictGet_dictSet_ne _ _ _ _ h2, dictGet_dictSet_ne _ _ _ _ h1]
  · rw [augmentedItem, dictGet_dictSet_ne _ _ _ _ (by decide), dictGet_dictSet_self]
  · rw [augmentedItem, dictGet_dictSet_self]
  · intro k
    rw [augmentedItem, isSome_dictGet_dictSet, isSome_dictGet_dictSet]
    tauto

/-! Claim theorems. -/

/-- C2: the claim says a transport-level exception inside rlcheck is caught
and converted into a TransportError result instead of killing the worker;
the code instead crashes: the except branch stores the exception, but the
unconditional read of response.status_code on line 267 raises
UnboundLocalError because the local response was never assigned, and that
exception propagates out of rlcheck (the worker loop has no handler). -/
theorem rlcheck_transport_fault_crashes (ioc : String) :
    rlcheck ioc HttpOutcome.exn = Except.error PyError.unboundLocalResponse := rfl

/-- C6: a successful (status 200) classification response carrying a risk
level is marked blocked-by-risk-level exactly when the level is greater than
or equal to MIN_BLOCKED_RISK_LEVEL, threshold included, and at or above the
threshold the result is blocked. -/
theorem blocked_by_risk_level_threshold (ioc : String) (resp : Response) (level : Int)
    (h200 : resp.status_code = 200) (hlev : resp.data.threatRiskLevel = some level) :
    ∃ ret, rlcheck ioc (HttpOutcome.ok resp) = Except.ok ret ∧
      ret.risklevel = level ∧
      (ret.blocked_by_rl = true ↔ MIN_BLOCKED_RISK_LEVEL ≤ level) ∧
      (MIN_BLOCKED_RISK_LEVEL ≤ level → ret.blocked = 1) := by
  obtain ⟨h1, h2, h3⟩ := rlcheck200_props
    { error := 0, blocked := 0, risklevel := 0, category := [],
      blocked_by_cat := false, blocked_by_rl := false } resp.data level hlev rfl
  refine ⟨rlcheck200
    { error := 0, blocked := 0, risklevel := 0, category := [],
      blocked_by_cat := false, blocked_by_rl := false } resp.data, ?_, h1, h2, h3⟩
  simp [rlcheck, h200]

/-- Witness for C6 at the threshold itself: a response with risk level
exactly 8 is marked blocked-by-risk-level and blocked. -/
theorem blocked_by_risk_level_threshold_witness :
    (⟨200, ⟨none, some 8⟩⟩ : Response).status_code = 200 ∧
    (⟨200, ⟨none, some 8⟩⟩ : Response).data.threatRiskLevel = some 8 ∧
    ∃ ret, rlcheck "8.8.8.8" (HttpOutcome.ok ⟨200, ⟨none, some 8⟩⟩) = Except.ok ret ∧
      ret.risklevel = 8 ∧
      (ret.blocked_by_rl = true ↔ MIN_BLOCKED_RISK_LEVEL ≤ 8) ∧
      (MIN_BLOCKED_RISK_LEVEL ≤ 8 → ret.blocked = 1) :=
  ⟨rfl, rfl, blocked_by_risk_level_threshold "8.8.8.8" ⟨200, ⟨none, some 8⟩⟩ 8 rfl rfl⟩

/-- C9: a successful (status 200) classification response that carries no
threatRiskLevel leaves the risk level at its initial value 0. -/
theorem risklevel_defaults_to_zero (ioc : String) (resp : Response)
    (h200 : resp.status_code = 200) (hnone : resp.data.threatRiskLevel = none) :
    ∃ ret, rlcheck ioc (HttpOutcome.ok resp) = Except.ok ret ∧ ret.risklevel = 0 := by
  refine ⟨rlcheck200
    { error := 0, blocked := 0, risklevel := 0, category := [],
      blocked_by_cat := false, blocked_by_rl := false } resp.data, ?_, ?_⟩
  · simp [rlcheck, h200]
  · exact rlcheck200_risklevel_none _ _ hnone rfl

/-- Witness for C9: a 200 response with a category but no risk level yields
risk level 0. -/
theorem risklevel_defaults_to_zero_witness :
    (⟨200, ⟨some [⟨21, "Business/Economy"⟩], none⟩⟩ : Response).status_code = 200 ∧
    (⟨200, ⟨some [⟨21, "Business/Economy"⟩], none⟩⟩ : Response).data.threatRiskLevel = none ∧
    ∃ ret, rlcheck "example.org"
        (HttpOutcome.ok ⟨200, ⟨some [⟨21, "Business/Economy"⟩], none⟩⟩) = Except.ok ret ∧
      ret.risklevel = 0 :=
  ⟨rfl, rfl, risklevel_defaults_to_zero "example.org"
    ⟨200, ⟨some [⟨21, "Business/Economy"⟩], none⟩⟩ rfl rfl⟩

/-- C10: a response whose status code is outside the handled set
200/400/401/429 leaves the initial result untouched: error 0, blocked 0,
risk level 0, empty category list; do_work therefore routes the record to
the policy sink with a policy stat event instead of treating it as an
error. -/
theorem unknown_status_goes_to_policy (item : Record) (ioc : String) (resp : Response)
    (hioc : dictGet item "Indicator" = some ioc)
    (hstat : resp.status_code ∉ ([200, 400, 401, 429] : List Nat)) :
    rlcheck ioc (HttpOutcome.ok resp) =
      Except.ok { error := 0, blocked := 0, risklevel := 0, category := [],
                  blocked_by_cat := false, blocked_by_rl := false } ∧
    ∃ w, do_work item (HttpOutcome.ok resp) = Except.ok w ∧
      w.route = Route.toPolicy ∧ w.stat = StatEvent.policy := by
  simp only [List.mem_cons, List.not_mem_nil, or_false, not_or] at hstat
  obtain ⟨h200, h400, h401, h429⟩ := hstat
  have h1 : rlcheck ioc (HttpOutcome.ok resp) =
      Except.ok { error := 0, blocked := 0, risklevel := 0, category := [],
                  blocked_by_cat := false, blocked_by_rl := false } := by
    simp [rlcheck, h200, h400, h401, h429]
  refine ⟨h1, ⟨{ route := Route.toPolicy, stat := StatEvent.policy,
                 written := augmentedItem item
                   { error := 0, blocked := 0, risklevel := 0, category := [],
                     blocked_by_cat := false, blocked_by_rl := false } }, ?_, rfl, rfl⟩⟩
  simp [do_work, hioc, h1]

/-- Witness for C10 at status code 500. -/
theorem unknown_status_goes_to_policy_witness :
    dictGet [("Indicator", "example.org")] "Indicator" = some "example.org" ∧
    (⟨500, ⟨none, none⟩⟩ : Response).status_code ∉ ([200, 400, 401, 429] : List Nat) ∧
    (rlcheck "example.org" (HttpOutcome.ok ⟨500, ⟨none, none⟩⟩) =
      Except.ok { error := 0, blocked := 0, risklevel := 0, category := [],
                  blocked_by_cat := false, blocked_by_rl := false } ∧
    ∃ w, do_work [("Indicator", "example.org")] (HttpOutcome.ok ⟨500, ⟨none, none⟩⟩) =
        Except.ok w ∧
      w.route = Route.toPolicy ∧ w.stat = StatEvent.policy) :=
  ⟨rfl, by decide,
    unknown_status_goes_to_policy [("Indicator", "example.org")] "example.org"
      ⟨500, ⟨none, none⟩⟩ rfl (by decide)⟩

/-- C1: for every dequeued record whose classification call returns (rather
than crashing), do_work routes the record to exactly one of the three sinks
and records exactly the one matching stat event: a non-zero error result goes
to the error sink with an error event; otherwise a blocked result goes, with
the two derived fields added, to the blocked sink with a blocked event;
otherwise the record goes, with the two derived fields added, to the policy
sink with a policy event.  The returned WorkResult names one route and one
stat event, so the record reaches exactly one sink, never none. -/
theorem do_work_routes_exactly_once (item : Record) (o : HttpOutcome) (ioc : String)
    (ret : RlRet) (hioc : dictGet item "Indicator" = some ioc)
    (hcl : rlcheck ioc o = Except.ok ret) :
    ∃ w, do_work item o = Except.ok w ∧
      w.stat = statOf w.route ∧
      (ret.error ≠ 0 → w.route = Route.toError ∧ w.written = item) ∧
      (ret.error = 0 → ret.blocked = 1 →
        w.route = Route.toBlocked ∧ w.written = augmentedItem item ret) ∧
      (ret.error = 0 → ret.blocked ≠ 1 →
        w.route = Route.toPolicy ∧ w.written = augmentedItem item ret) := by
  by_cases he : ret.error = 0
  · by_cases hb : ret.blocked = 1
    · refine ⟨{ route := Route.toBlocked, stat := StatEvent.blocked,
                written := augmentedItem item ret }, ?_, rfl, ?_, ?_, ?_⟩
      · simp [do_work, hioc, hcl, he, hb]
      · intro hcontra; exact absurd he hcontra
      · intro _ _; exact ⟨rfl, rfl⟩
      · intro _ hcontra; exact absurd hb hcontra
    · refine ⟨{ route := Route.toPolicy, stat := StatEvent.policy,
                written := augmentedItem item ret }, ?_, rfl, ?_, ?_, ?_⟩
      · simp [do_work, hioc, hcl, he, hb]
      · intro hcontra; exact absurd he hcontra
      · intro _ hcontra; exact absurd hcontra hb
      · intro _ _; exact ⟨rfl, rfl⟩
  · refine ⟨{ route := Route.toError, stat := StatEvent.error, written := item },
      ?_, rfl, ?_, ?_, ?_⟩
    · simp [do_work, hioc, hcl, he]
    · intro _; exact ⟨rfl, rfl⟩
    · intro hcontra; exact absurd hcontra he
    · intro hcontra; exact absurd hcontra he

/-- Witness for C1: a record classified at risk level 9 is routed exactly
once, to the blocked sink. -/
theorem do_work_routes_exactly_once_witness :
    dictGet [("Indicator", "8.8.8.8")] "Indicator" = some "8.8.8.8" ∧
    rlcheck "8.8.8.8" (HttpOutcome.ok ⟨200, ⟨none, some 9⟩⟩) =
      Except.ok ⟨0, 1, 9, [], false, true⟩ ∧
    ∃ w, do_work [("Indicator", "8.8.8.8")] (HttpOutcome.ok ⟨200, ⟨none, some 9⟩⟩) =
        Except.ok w ∧
      w.stat = statOf w.route ∧
      ((⟨0, 1, 9, [], false, true⟩ : RlRet).error ≠ 0 →
        w.route = Route.toError ∧ w.written = [("Indicator", "8.8.8.8")]) ∧
      ((⟨0, 1, 9, [], false, true⟩ : RlRet).error = 0 →
        (⟨0, 1, 9, [], false, true⟩ : RlRet).blocked = 1 →
        w.route = Route.toBlocked ∧
        w.written = augmentedItem [("Indicator", "8.8.8.8")] ⟨0, 1, 9, [], false, true⟩) ∧
      ((⟨0, 1, 9, [], false, true⟩ : RlRet).error = 0 →
        (⟨0, 1, 9, [], false, true⟩ : RlRet).blocked ≠ 1 →
        w.route = Route.toPolicy ∧
        w.written = augmentedItem [("Indicator", "8.8.8.8")] ⟨0, 1, 9, [], false, true⟩) :=
  ⟨rfl, rfl, do_work_routes_exactly_once [("Indicator", "8.8.8.8")]
    (HttpOutcome.ok ⟨200, ⟨none, some 9⟩⟩) "8.8.8.8" ⟨0, 1, 9, [], false, true⟩ rfl rfl⟩

/-- C3: starting from any counter state satisfying the aggregator relation,
applying any finite sequence of stat events from the closed tag set keeps
total equal to blocked plus policy plus error, and all four counters are
monotonically non-decreasing.  Since the state is arbitrary, the relation
holds after every event of a run, and in particular at its end. -/
theorem stat_counters_invariant (s : IOCStat) (es : List StatEvent) (h : statInv s) :
    statInv (stat_keeper_run s es) ∧
    s.ioc_blocked ≤ (stat_keeper_run s es).ioc_blocked ∧
    s.ioc_policy ≤ (stat_keeper_run s es).ioc_policy ∧
    s.ioc_error ≤ (stat_keeper_run s es).ioc_error ∧
    s.ioc_total ≤ (stat_keeper_run s es).ioc_total := by
  induction es generalizing s with
  | nil => exact ⟨h, le_refl _, le_refl _, le_refl _, le_refl _⟩
  | cons e rest ih =>
      have hstep : statInv (stat_keeper_step s e) := by
        cases e <;> simp [stat_keeper_step, statInv] at h ⊢ <;> omega
      obtain ⟨h1, h2, h3, h4, h5⟩ := ih (stat_keeper_step s e) hstep
      refine ⟨h1, ?_, ?_, ?_, ?_⟩ <;>
        cases e <;>
          simp only [stat_keeper_run, stat_keeper_step] at h2 h3 h4 h5 ⊢ <;>
          omega

/-- Witness for C3 on one event of each tag from the initial counters. -/
theorem stat_counters_invariant_witness :
    statInv statInit ∧
    (statInv (stat_keeper_run statInit
        [StatEvent.blocked, StatEvent.policy, StatEvent.error]) ∧
      statInit.ioc_blocked ≤ (stat_keeper_run statInit
        [StatEvent.blocked, StatEvent.policy, StatEvent.error]).ioc_blocked ∧
      statInit.ioc_policy ≤ (stat_keeper_run statInit
        [StatEvent.blocked, StatEvent.policy, StatEvent.error]).ioc_policy ∧
      statInit.ioc_error ≤ (stat_keeper_run statInit
        [StatEvent.blocked, StatEvent.policy, StatEvent.error]).ioc_error ∧
      statInit.ioc_total ≤ (stat_keeper_run statInit
        [StatEvent.blocked, StatEvent.policy, StatEvent.error]).ioc_total) :=
  ⟨rfl, stat_counters_invariant statInit
    [StatEvent.blocked, StatEvent.policy, StatEvent.error] rfl⟩

theorem sinkRun_inv (s : SinkState) (ops : List SinkOp) (h : sinkInv s) :
    sinkInv (sinkRun s ops) := by
  induction ops generalizing s with
  | nil => exact h
  | cons op rest ih =>
      refine ih (sinkStep s op) ?_
      cases op with
      | submit d =>
          simp only [sinkStep, CSVWriter_write, sinkInv] at h ⊢
          rw [h, List.append_assoc]
      | writeStep =>
          cases hp : s.pending with
          | nil =>
              simpa [sinkStep, internal_writer_step, hp, sinkInv] using h
          | cons d rest2 =>
              simp only [sinkStep, internal_writer_step, hp, sinkInv] at h ⊢
              rw [h]
              simp

/-- C4: in main, q.join strictly precedes raising the shutdown signal, which
strictly precedes closing the three sinks (src/rlcheckmt.py lines 421-428);
inside CSVWriter.close the pending-queue join precedes releasing the file
handle (lines 176-179); and the sink bookkeeping relation is preserved by
any interleaving of submits and writer steps, so when the pending queue has
drained, every previously submitted record has been written. -/
theorem coordinator_closes_after_drain (s : SinkState) (ops : List SinkOp)
    (h : sinkInv s) :
    (main_shutdown_trace.indexOf CoordStep.queueJoin <
        main_shutdown_trace.indexOf CoordStep.shutdownSet ∧
      main_shutdown_trace.indexOf CoordStep.shutdownSet <
        main_shutdown_trace.indexOf CoordStep.closeBlocked ∧
      main_shutdown_trace.indexOf CoordStep.closeBlocked <
        main_shutdown_trace.indexOf CoordStep.closePolicy ∧
      main_shutdown_trace.indexOf CoordStep.closePolicy <
        main_shutdown_trace.indexOf CoordStep.closeError) ∧
    csvwriter_close_trace.indexOf SinkCloseStep.pendingJoin <
      csvwriter_close_trace.indexOf SinkCloseStep.releaseHandle ∧
    sinkInv (sinkRun s ops) ∧
    ((sinkRun s ops).pending = [] →
      (sinkRun s ops).written = (sinkRun s ops).submitted) := by
  refine ⟨by decide, by decide, sinkRun_inv s ops h, ?_⟩
  intro hp
  have h2 := sinkRun_inv s ops h
  rw [sinkInv, hp, List.append_nil] at h2
  exact h2.symm

/-- Witness for C4: one submit followed by one writer step on the fresh
sink drains the pending queue with the record written. -/
theorem coordinator_closes_after_drain_witness :
    sinkInv sinkInit ∧
    ((main_shutdown_trace.indexOf CoordStep.queueJoin <
        main_shutdown_trace.indexOf CoordStep.shutdownSet ∧
      main_shutdown_trace.indexOf CoordStep.shutdownSet <
        main_shutdown_trace.indexOf CoordStep.closeBlocked ∧
      main_shutdown_trace.indexOf CoordStep.closeBlocked <
        main_shutdown_trace.indexOf CoordStep.closePolicy ∧
      main_shutdown_trace.indexOf CoordStep.closePolicy <
        main_shutdown_trace.indexOf CoordStep.closeError) ∧
    csvwriter_close_trace.indexOf SinkCloseStep.pendingJoin <
      csvwriter_close_trace.indexOf SinkCloseStep.releaseHandle ∧
    sinkInv (sinkRun sinkInit
      [SinkOp.submit [("Indicator", "8.8.8.8")], SinkOp.writeStep]) ∧
    ((sinkRun sinkInit
        [SinkOp.submit [("Indicator", "8.8.8.8")], SinkOp.writeStep]).pending = [] →
      (sinkRun sinkInit
        [SinkOp.submit [("Indicator", "8.8.8.8")], SinkOp.writeStep]).written =
      (sinkRun sinkInit
        [SinkOp.submit [("Indicator", "8.8.8.8")], SinkOp.writeStep]).submitted)) :=
  ⟨rfl, coordinator_closes_after_drain sinkInit
    [SinkOp.submit [("Indicator", "8.8.8.8")], SinkOp.writeStep] rfl⟩

theorem ingest_rows_append (rows : List Record) (st : IngestState)
    (h : ∀ row ∈ rows, (dictGet row "ThreatType").isSome = true) :
    ingest_rows st rows = Except.ok
      { queued := st.queued ++ rows.filter row_supported,
        errorWritten := st.errorWritten ++ rows.filter (fun r => ! row_supported r),
        statEvents := st.statEvents ++
          List.replicate ((rows.filter (fun r => ! row_supported r)).length)
            StatEvent.error } := by
  induction rows generalizing st with
  | nil => simp [ingest_rows]
  | cons row rest ih =>
      have hrow := h row (List.mem_cons_self row rest)
      obtain ⟨t, ht⟩ := Option.isSome_iff_exists.mp hrow
      have hrest : ∀ r ∈ rest, (dictGet r "ThreatType").isSome = true :=
        fun r hr => h r (List.mem_cons_of_mem row hr)
      cases hsup : SUPPORTED_THREAT_TYPES.contains t with
      | true =>
          have hmem : t ∈ SUPPORTED_THREAT_TYPES := by simpa using hsup
          have hs : row_supported row = true := by simp [row_supported, ht, hmem]
          have hstep : ingest_rows st (row :: rest) =
              ingest_rows
                { queued := st.queued ++ [row], errorWritten := st.errorWritten,
                  statEvents := st.statEvents } rest := by
            simp [ingest_rows, ht, hmem]
          rw [hstep, ih _ hrest]
          simp [List.filter_cons, hs, List.append_assoc]
      | false =>
          have hmem : t ∉ SUPPORTED_THREAT_TYPES := by simpa using hsup
          have hs : row_supported row = false := by simp [row_supported, ht, hmem]
          have hstep : ingest_rows st (row :: rest) =
              ingest_rows
                { queued := st.queued, errorWritten := st.errorWritten ++ [row],
                  statEvents := st.statEvents ++ [StatEvent.error] } rest := by
            simp [ingest_rows, ht, hmem]
          rw [hstep, ih _ hrest]
          simp [List.filter_cons, hs, List.append_assoc, List.replicate_succ]

/-- C5: during ingestion every row whose ThreatType is in the supported set
is enqueued on the work queue; every other row is written directly to the
error sink with exactly one error stat event and is never enqueued — and
hence never reaches the classifier, since rlcheck is invoked only on
dequeued items. -/
theorem ingestion_partitions_rows (rows : List Record)
    (h : ∀ row ∈ rows, (dictGet row "ThreatType").isSome = true) :
    ∃ st, ingest_rows { queued := [], errorWritten := [], statEvents := [] } rows =
        Except.ok st ∧
      st.queued = rows.filter row_supported ∧
      st.errorWritten = rows.filter (fun r => ! row_supported r) ∧
      st.statEvents = List.replicate st.errorWritten.length StatEvent.error ∧
      (∀ r ∈ rows, row_supported r = true → r ∈ st.queued) ∧
      (∀ r ∈ rows, row_supported r = false → r ∈ st.errorWritten ∧ r ∉ st.queued) := by
  refine ⟨_, ingest_rows_append rows
    { queued := [], errorWritten := [], statEvents := [] } h, ?_, ?_, ?_, ?_, ?_⟩
  · simp
  · simp
  · simp
  · intro r hr hs
    simp [List.mem_filter, hr, hs]
  · intro r hr hs
    constructor
    · simp [List.mem_filter, hr, hs]
    · simp [List.mem_filter, hs]

/-- Witness for C5 on one supported and one unsupported row. -/
theorem ingestion_partitions_rows_witness :
    (∀ row ∈ ([[("ThreatType", "Domain"), ("Indicator", "example.org")],
               [("ThreatType", "Hash"), ("Indicator", "abc")]] : List Record),
      (dictGet row "ThreatType").isSome = true) ∧
    ∃ st, ingest_rows { queued := [], errorWritten := [], statEvents := [] }
        [[("ThreatType", "Domain"), ("Indicator", "example.org")],
         [("ThreatType", "Hash"), ("Indicator", "abc")]] = Except.ok st ∧
      st.queued = List.filter row_supported
        [[("ThreatType", "Domain"), ("Indicator", "example.org")],
         [("ThreatType", "Hash"), ("Indicator", "abc")]] ∧
      st.errorWritten = List.filter (fun r => ! row_supported r)
        [[("ThreatType", "Domain"), ("Indicator", "example.org")],
         [("ThreatType", "Hash"), ("Indicator", "abc")]] ∧
      st.statEvents = List.replicate st.errorWritten.length StatEvent.error ∧
      (∀ r ∈ ([[("ThreatType", "Domain"), ("Indicator", "example.org")],
               [("ThreatType", "Hash"), ("Indicator", "abc")]] : List Record),
        row_supported r = true → r ∈ st.queued) ∧
      (∀ r ∈ ([[("ThreatType", "Domain"), ("Indicator", "example.org")],
               [("ThreatType", "Hash"), ("Indicator", "abc")]] : List Record),
        row_supported r = false → r ∈ st.errorWritten ∧ r ∉ st.queued) :=
  ⟨by decide, ingestion_partitions_rows
    [[("ThreatType", "Domain"), ("Indicator", "example.org")],
     [("ThreatType", "Hash"), ("Indicator", "abc")]] (by decide)⟩

theorem applyWrites_present (n : Nat) (f : FileState) :
    (applyWrites n f).present = f.present := by
  induction n generalizing f with
  | zero => rfl
  | succ k ih => simp [applyWrites, csvwriter_write_file, ih]

/-- C7 counterexample: in the concurrent pipeline rlcheckmt.py an output role
that received zero records still leaves a file behind, because CSVWriter
opens the file and writes the header row at construction and nothing ever
removes it; so the blocked role of a run over an input with no supported
rows keeps a header-only file, refuting the claim as stated. -/
theorem empty_role_leaves_file_mt :
    (rlcheckmt_role_file 0).rows = 0 ∧ (rlcheckmt_role_file 0).present = true :=
  ⟨rfl, rfl⟩

/-- C7 amended: after a run of the multi-threaded rlcheckmt.py every output
role leaves its file behind whatever its record count (the header is written
at sink construction and the file is never removed); the no-file-left-behind
behavior holds only in the single-threaded rlcheck.py, whose main removes a
role file exactly when that role received zero records. -/
theorem empty_role_file_after_run (n count : Nat) :
    (rlcheckmt_role_file n).present = true ∧
    ((rlcheck_st_role_file count).present = true ↔ count ≠ 0) := by
  constructor
  · simp [rlcheckmt_role_file, csvwriter_close_file, applyWrites_present,
      csvwriter_init_file]
  · cases count with
    | zero => simp [rlcheck_st_role_file]
    | succ k => simp [rlcheck_st_role_file, applyWrites_present]

/-- C8: for every record processed without classifier error, do_work changes
only the two derived fields: BC_RiskLevel and BC_Category are set, every
other field of the written record keeps the value of the original record
verbatim, and no field outside those two is added or removed. -/
theorem do_work_frame (item : Record) (o : HttpOutcome) (ioc : String) (ret : RlRet)
    (hioc : dictGet item "Indicator" = some ioc)
    (hcl : rlcheck ioc o = Except.ok ret) (herr : ret.error = 0) :
    ∃ w, do_work item o = Except.ok w ∧
      (∀ k, k ≠ "BC_RiskLevel" → k ≠ "BC_Category" →
          dictGet w.written k = dictGet item k) ∧
      dictGet w.written "BC_RiskLevel" = some (toString ret.risklevel) ∧
      dictGet w.written "BC_Category" = some (joinCatsLoop "" ret.category) ∧
      (∀ k, (dictGet w.written k).isSome = true ↔
          (dictGet item k).isSome = true ∨ k = "BC_RiskLevel" ∨ k = "BC_Category") := by
  obtain ⟨hf1, hf2, hf3, hf4⟩ := augmentedItem_frame item ret
  by_cases hb : ret.blocked = 1
  · exact ⟨{ route := Route.toBlocked, stat := StatEvent.blocked,
             written := augmentedItem item ret },
      by simp [do_work, hioc, hcl, herr, hb], hf1, hf2, hf3, hf4⟩
  · exact ⟨{ route := Route.toPolicy, stat := StatEvent.policy,
             written := augmentedItem item ret },
      by simp [do_work, hioc, hcl, herr, hb], hf1, hf2, hf3, hf4⟩

/-- Witness for C8 on a two-field record classified at risk level 9. -/
theorem do_work_frame_witness :
    dictGet [("ThreatType", "IP Address"), ("Indicator", "8.8.8.8")] "Indicator" =
      some "8.8.8.8" ∧
    rlcheck "8.8.8.8" (HttpOutcome.ok ⟨200, ⟨none, some 9⟩⟩) =
      Except.ok ⟨0, 1, 9, [], false, true⟩ ∧
    (⟨0, 1, 9, [], false, true⟩ : RlRet).error = 0 ∧
    ∃ w, do_work [("ThreatType", "IP Address"), ("Indicator", "8.8.8.8")]
        (HttpOutcome.ok ⟨200, ⟨none, some 9⟩⟩) = Except.ok w ∧
      (∀ k, k ≠ "BC_RiskLevel" → k ≠ "BC_Category" →
          dictGet w.written k =
          dictGet [("ThreatType", "IP Address"), ("Indicator", "8.8.8.8")] k) ∧
      dictGet w.written "BC_RiskLevel" =
        some (toString (⟨0, 1, 9, [], false, true⟩ : RlRet).risklevel) ∧
      dictGet w.written "BC_Category" =
        some (joinCatsLoop "" (⟨0, 1, 9, [], false, true⟩ : RlRet).category) ∧
      (∀ k, (dictGet w.written k).isSome = true ↔
          (dictGet [("ThreatType", "IP Address"), ("Indicator", "8.8.8.8")] k).isSome = true ∨
          k = "BC_RiskLevel" ∨ k = "BC_Category") :=
  ⟨rfl, rfl, rfl, do_work_frame [("ThreatType", "IP Address"), ("Indicator", "8.8.8.8")]
    (HttpOutcome.ok ⟨200, ⟨none, some 9⟩⟩) "8.8.8.8" ⟨0, 1, 9, [], false, true⟩ rfl rfl rfl⟩

end TExRLCheck
